import Mathlib

/-!
Shallow embedding of the `tcplisten` package: construction of a TCP listener
whose socket is configured with performance options before `bind`/`listen`.

OS interaction (socket creation, `setsockopt`, `bind`, `listen`, address
resolution, interface lookup) is modelled by an explicit environment of
oracles (`Env`): each oracle returns either success or an OS error string,
and the pipeline is a pure function of the environment.  `fdSetup` records
the sequence of socket operations it performs (`Step` trace) and
`NewListener` records the descriptors it opens and closes (`FdEvent` trace),
so ordering and resource-safety properties can be stated about the traces.
-/

namespace TcpListen

/-- An OS-level file descriptor. -/
abbrev Fd := Nat

/-- An error produced by the OS / standard library, kept abstract as text. -/
abbrev OsErr := String

/-- `syscall.SOL_SOCKET`. -/
def SOL_SOCKET : Nat := 1

/-- `syscall.SO_REUSEADDR`. -/
def SO_REUSEADDR : Nat := 2

/-- `syscall.IPPROTO_TCP`. -/
def IPPROTO_TCP : Nat := 6

/-- `syscall.TCP_NODELAY`. -/
def TCP_NODELAY : Nat := 100

/-- `soReusePort` from `tcplisten_bsd.go`: `syscall.SO_REUSEPORT` (0x200). -/
def soReusePort : Nat := 512

/-- `syscall.TCP_DEFER_ACCEPT` (full-featured platform). -/
def TCP_DEFER_ACCEPT : Nat := 109

/-- `TCP_FASTOPEN` (full-featured platform). -/
def TCP_FASTOPEN : Nat := 123

/-- `syscall.TCP_QUICKACK` (full-featured platform). -/
def TCP_QUICKACK : Nat := 112

/-- `syscall.SOMAXCONN` on the BSD-family platforms. -/
def SOMAXCONN : Int := 128

/-- `syscall.AF_INET`. -/
def AF_INET : Int := 2

/-- `syscall.AF_INET6`. -/
def AF_INET6 : Int := 10

/-- `Config` from `tcplisten.go` (Unix variant): the options requested by the
caller.  `Backlog` is a Go `int`. -/
structure Config where
  ReusePort : Bool
  DeferAccept : Bool
  FastOpen : Bool
  NoDelay : Bool
  QuickACK : Bool
  Backlog : Int
deriving Repr, DecidableEq

/-- `Config` from `tcplisten_windows.go`: the Windows variant has no
`NoDelay`/`QuickACK` fields. -/
structure ConfigWindows where
  ReusePort : Bool
  DeferAccept : Bool
  FastOpen : Bool
  Backlog : Int
deriving Repr, DecidableEq

/-- `net.TCPAddr` as produced by `net.ResolveTCPAddr`: an IP (a byte list of
length 0, 4 or 16, where 0 stands for Go's `nil` IP), a port and a zone. -/
structure TCPAddr where
  ip : List Nat
  port : Int
  zone : String
deriving Repr, DecidableEq

/-- `net.Interface` as returned by `net.InterfaceByName`; only the index is
used by the code. -/
structure Interface where
  index : Nat
deriving Repr, DecidableEq

/-- A `net.Listener`; it owns one descriptor (the one `net.FileListener`
duplicated from the file it was given). -/
structure Listener where
  fd : Fd
deriving Repr, DecidableEq

/-- `syscall.Sockaddr`: either a `SockaddrInet4` (4 address bytes, port) or a
`SockaddrInet6` (16 address bytes, port, zone id). -/
inductive Sockaddr where
  | inet4 (addr : List Nat) (port : Int)
  | inet6 (addr : List Nat) (port : Int) (zoneId : Nat)
deriving Repr, DecidableEq

/-- The errors `NewListener` can return, tagged by provenance; each carries
the wrapped OS error text where the Go code wraps one. -/
inductive Err where
  | unsupportedNetwork
  | unknownNetworkType (network : String)
  | resolve (e : OsErr)
  | interfaceLookup (e : OsErr)
  | os (e : OsErr)
  | reuseAddr (e : OsErr)
  | nagle (e : OsErr)
  | reusePort (e : OsErr)
  | option (name : String) (e : OsErr)
  | bindErr (addr : String) (e : OsErr)
  | backlogQuery (e : OsErr)
  | listenErr (addr : String) (e : OsErr)
deriving Repr, DecidableEq

/-- The environment of OS / standard-library oracles the pipeline calls.
`Option OsErr` results mean `none` = success; `Except` results carry a value
on success. -/
structure Env where
  resolveTCPAddr : String → String → Except OsErr TCPAddr
  interfaceByName : String → Except OsErr Interface
  newSocketCloexec : Int → Except OsErr Fd
  setsockoptInt : Fd → Nat → Nat → Int → Option OsErr
  bind : Fd → Sockaddr → Option OsErr
  listen : Fd → Int → Option OsErr
  fileListener : Fd → Except OsErr Listener
  fileClose : Fd → Option OsErr
  soMaxConnQuery : Except OsErr Int
  netListen : String → String → Except OsErr Listener

/-- The platform-capability table: the four optional tunables and the
backlog query, one variant per platform family. -/
structure Platform where
  enableDeferAccept : Env → Fd → Option Err
  enableFastOpen : Env → Fd → Option Err
  enableNoDelay : Env → Fd → Option Err
  enableQuickAck : Env → Fd → Option Err
  soMaxConn : Env → Except OsErr Int

/-- The BSD-family variant (`tcplisten_bsd.go`): every tunable is a no-op
returning success, and `soMaxConn` returns `syscall.SOMAXCONN` with no error. -/
def bsdPlatform : Platform where
  enableDeferAccept := fun _ _ => none
  enableFastOpen := fun _ _ => none
  enableNoDelay := fun _ _ => none
  enableQuickAck := fun _ _ => none
  soMaxConn := fun _ => .ok SOMAXCONN

/-- Modelled from the spec: the full-featured platform variant
(`tcplisten_linux.go`, absent from the sources; spec sections 4.3 and 4.4 and
the error taxonomy `OptionApplicationError(optionName)`).  Each enable sets
the corresponding platform socket option and wraps any failure with the
option's name; the backlog query reads the system-wide maximum. -/
def linuxPlatform : Platform where
  enableDeferAccept := fun env fd =>
    (env.setsockoptInt fd IPPROTO_TCP TCP_DEFER_ACCEPT 1).map (Err.option "TCP_DEFER_ACCEPT")
  enableFastOpen := fun env fd =>
    (env.setsockoptInt fd IPPROTO_TCP TCP_FASTOPEN 1).map (Err.option "TCP_FASTOPEN")
  enableNoDelay := fun env fd =>
    (env.setsockoptInt fd IPPROTO_TCP TCP_NODELAY 1).map (Err.option "TCP_NODELAY")
  enableQuickAck := fun env fd =>
    (env.setsockoptInt fd IPPROTO_TCP TCP_QUICKACK 1).map (Err.option "TCP_QUICKACK")
  soMaxConn := fun env => env.soMaxConnQuery

/-- `copy(dst[:], src)` into a fresh zeroed byte array of length `n`: writes
`min n src.length` bytes, the rest stays zero. -/
def copyFill (n : Nat) (src : List Nat) : List Nat :=
  src.take n ++ List.replicate (n - src.length) 0

/-- `net.IP.To4`: the 4-byte form of an IP, or `none` (Go `nil`) when the IP
is not representable as IPv4 (the 16-byte form qualifies only when it is an
IPv4-mapped IPv6 address). -/
def ipTo4 (ip : List Nat) : Option (List Nat) :=
  if ip.length = 4 then some ip
  else if ip.length = 16 ∧ ip.take 10 = List.replicate 10 0 ∧
      (ip.drop 10).take 2 = [255, 255] then some (ip.drop 12)
  else none

/-- `net.IP.To16`: the 16-byte form of an IP, or `[]` (Go `nil`) when the IP
has neither 4 nor 16 bytes. -/
def ipTo16 (ip : List Nat) : List Nat :=
  if ip.length = 4 then List.replicate 10 0 ++ [255, 255] ++ ip
  else if ip.length = 16 then ip
  else []

/-- The bytes `copy` reads from a possibly-nil source (`nil` contributes no
bytes). -/
def optBytes : Option (List Nat) → List Nat
  | none => []
  | some l => l

/-- `getSockaddr` from `tcplisten.go`: validates the network name, resolves
the address, and builds the family-specific socket address. -/
def getSockaddr (env : Env) (network addr : String) : Except Err (Sockaddr × Int) :=
  if network ≠ "tcp" ∧ network ≠ "tcp4" ∧ network ≠ "tcp6" then
    .error .unsupportedNetwork
  else
    match env.resolveTCPAddr network addr with
    | .error e => .error (.resolve e)
    | .ok tcpAddr =>
      if network = "tcp" ∨ network = "tcp4" then
        .ok (.inet4 (copyFill 4 (optBytes (ipTo4 tcpAddr.ip))) tcpAddr.port, AF_INET)
      else if network = "tcp6" then
        let a16 := copyFill 16 (ipTo16 tcpAddr.ip)
        if tcpAddr.zone ≠ "" then
          match env.interfaceByName tcpAddr.zone with
          | .error e => .error (.interfaceLookup e)
          | .ok ifi => .ok (.inet6 a16 tcpAddr.port (ifi.index % 2 ^ 32), AF_INET6)
        else
          .ok (.inet6 a16 tcpAddr.port 0, AF_INET6)
      else
        .error (.unknownNetworkType network)

/-- One socket operation performed by `fdSetup`, in the order performed. -/
inductive Step where
  | setReuseAddr
  | setNoDelay
  | setReusePort
  | deferAccept
  | fastOpen
  | noDelay
  | quickAck
  | bindStep
  | listenStep (backlog : Int)
deriving Repr, DecidableEq

/-- Outcome of `fdSetup`: the operations performed, the receiver `Config`
as it stands when the method returns, and success or the error returned. -/
structure SetupResult where
  trace : List Step
  cfgOut : Config
  result : Except Err Unit
deriving Repr

/-- The backlog selection of `fdSetup`: `cfg.Backlog` unless it is `<= 0`,
in which case the platform's `soMaxConn` is queried, its failure wrapped as
the backlog-query error. -/
def effectiveBacklog (p : Platform) (env : Env) (cfg : Config) : Except Err Int :=
  if cfg.Backlog ≤ 0 then
    match p.soMaxConn env with
    | .error e => .error (.backlogQuery e)
    | .ok b => .ok b
  else .ok cfg.Backlog

/-- The tail of `fdSetup`: compute the effective backlog and call `listen`
with it. -/
def fdSetupListen (p : Platform) (env : Env) (cfg : Config) (fd : Fd)
    (addr : String) (tr : List Step) : SetupResult :=
  match effectiveBacklog p env cfg with
  | .error e => ⟨tr, cfg, .error e⟩
  | .ok backlog =>
    match env.listen fd backlog with
    | some e => ⟨tr ++ [.listenStep backlog], cfg, .error (.listenErr addr e)⟩
    | none => ⟨tr ++ [.listenStep backlog], cfg, .ok ()⟩

/-- The `bind` stage of `fdSetup`. -/
def fdSetupBind (p : Platform) (env : Env) (cfg : Config) (fd : Fd)
    (sa : Sockaddr) (addr : String) (tr : List Step) : SetupResult :=
  match env.bind fd sa with
  | some e => ⟨tr ++ [.bindStep], cfg, .error (.bindErr addr e)⟩
  | none => fdSetupListen p env cfg fd addr (tr ++ [.bindStep])

/-- One conditional option step of `fdSetup`: when the flag is set, perform
the operation and abort with its error on failure, else fall through. -/
def condStep (flag : Bool) (ev : Step) (res : Option Err) (cfg : Config)
    (tr : List Step) (k : List Step → SetupResult) : SetupResult :=
  if flag then
    match res with
    | some e => ⟨tr ++ [ev], cfg, .error e⟩
    | none => k (tr ++ [ev])
  else k tr

/-- Steps 3-7 of `fdSetup`: the five optional tunables, in source order,
followed by `bind` and `listen`. -/
def fdSetupOpts (p : Platform) (env : Env) (cfg : Config) (fd : Fd)
    (sa : Sockaddr) (addr : String) (tr : List Step) : SetupResult :=
  condStep cfg.ReusePort .setReusePort
    ((env.setsockoptInt fd SOL_SOCKET soReusePort 1).map Err.reusePort) cfg tr fun tr =>
  condStep cfg.DeferAccept .deferAccept (p.enableDeferAccept env fd) cfg tr fun tr =>
  condStep cfg.FastOpen .fastOpen (p.enableFastOpen env fd) cfg tr fun tr =>
  condStep cfg.NoDelay .noDelay (p.enableNoDelay env fd) cfg tr fun tr =>
  condStep cfg.QuickACK .quickAck (p.enableQuickAck env fd) cfg tr fun tr =>
  fdSetupBind p env cfg fd sa addr tr

/-- `Config.fdSetup` from `tcplisten.go`: unconditionally set
`SO_REUSEADDR` and `TCP_NODELAY`, then the optional tunables, then `bind`
and `listen`. -/
def fdSetup (p : Platform) (env : Env) (cfg : Config) (fd : Fd)
    (sa : Sockaddr) (addr : String) : SetupResult :=
  match env.setsockoptInt fd SOL_SOCKET SO_REUSEADDR 1 with
  | some e => ⟨[.setReuseAddr], cfg, .error (.reuseAddr e)⟩
  | none =>
    match env.setsockoptInt fd IPPROTO_TCP TCP_NODELAY 1 with
    | some e => ⟨[.setReuseAddr, .setNoDelay], cfg, .error (.nagle e)⟩
    | none => fdSetupOpts p env cfg fd sa addr [.setReuseAddr, .setNoDelay]

/-- Opening or closing of one descriptor, in the order performed. -/
inductive FdEvent where
  | openFd (fd : Fd)
  | closeFd (fd : Fd)
deriving Repr, DecidableEq

/-- Descriptors opened by a call and not yet closed, after a sequence of
descriptor events. -/
def remaining (tr : List FdEvent) : List Fd :=
  tr.foldl (fun acc e =>
    match e with
    | .openFd n => acc ++ [n]
    | .closeFd n => acc.erase n) []

/-- Outcome of `NewListener`: the listener or error, plus the descriptor
events (create socket, duplicate into the listener, closes) performed. -/
structure NLResult where
  result : Except Err Listener
  fdTrace : List FdEvent
deriving Repr

/-- `NewListener` from `tcplisten.go` (Unix variant): resolve, create the
socket, run `fdSetup` (closing the socket on failure), wrap the descriptor
in a file and hand it to `net.FileListener` (which duplicates it), then
close the file.  Every failure path closes what was opened. -/
def NewListener (p : Platform) (env : Env) (network addr : String)
    (cfg : Config) : NLResult :=
  match getSockaddr env network addr with
  | .error e => ⟨.error e, []⟩
  | .ok (sa, soType) =>
    match env.newSocketCloexec soType with
    | .error e => ⟨.error (.os e), []⟩
    | .ok fd =>
      match (fdSetup p env cfg fd sa addr).result with
      | .error e => ⟨.error e, [.openFd fd, .closeFd fd]⟩
      | .ok _ =>
        match env.fileListener fd with
        | .error e => ⟨.error (.os e), [.openFd fd, .closeFd fd]⟩
        | .ok ln =>
          match env.fileClose fd with
          | some e =>
            ⟨.error (.os e), [.openFd fd, .openFd ln.fd, .closeFd fd, .closeFd ln.fd]⟩
          | none => ⟨.ok ln, [.openFd fd, .openFd ln.fd, .closeFd fd]⟩

/-- `NewListener` from `tcplisten_windows.go`: the variant without low-level
socket access delegates everything to `net.Listen` and ignores the config. -/
def NewListenerWindows (env : Env) (network addr : String)
    (_cfg : ConfigWindows) : Except OsErr Listener :=
  env.netListen network addr

end TcpListen

namespace TcpListen

/-! ### Concrete environments used to exercise the theorems -/

/-- An environment where every OS call succeeds: resolution yields
`127.0.0.1:80`, the socket gets descriptor 7, `net.FileListener`
duplicates it to descriptor 9. -/
def envOk : Env where
  resolveTCPAddr := fun _ _ => .ok ⟨[127, 0, 0, 1], 80, ""⟩
  interfaceByName := fun _ => .ok ⟨3⟩
  newSocketCloexec := fun _ => .ok 7
  setsockoptInt := fun _ _ _ _ => none
  bind := fun _ _ => none
  listen := fun _ _ => none
  fileListener := fun _ => .ok ⟨9⟩
  fileClose := fun _ => none
  soMaxConnQuery := .ok 4096
  netListen := fun _ _ => .ok ⟨11⟩

/-- Like `envOk` but `bind` fails, as when the address is already in use. -/
def envBindFail : Env :=
  { envOk with bind := fun _ _ => some "EADDRINUSE" }

/-- Like `envOk` but the resolved address has a nil IP, as for `":8080"`. -/
def envNilIP : Env :=
  { envOk with resolveTCPAddr := fun _ _ => .ok ⟨[], 8080, ""⟩ }

/-- Like `envOk` but resolution yields an IPv6 address with a zone name that
does not name an existing interface. -/
def envBadZone : Env :=
  { envOk with
    resolveTCPAddr := fun _ _ => .ok ⟨List.replicate 15 0 ++ [1], 80, "nosuch0"⟩
    interfaceByName := fun _ => .error "route ip+net: no such network interface" }

/-- Like `envOk` but enabling `SO_REUSEPORT` fails while every other socket
option succeeds. -/
def envReusePortFail : Env :=
  { envOk with
    setsockoptInt := fun _ lvl opt _ =>
      if lvl = SOL_SOCKET ∧ opt = soReusePort then some "ENOPROTOOPT" else none }

/-- An environment whose `net.Listen` behaves as Go documents it: listening
on a Unix-domain socket path succeeds and yields a listener. -/
def envNetListenUnix : Env :=
  { envOk with
    netListen := fun n _ => if n = "unix" then .ok ⟨11⟩ else .error "unknown network" }

/-- A configuration with no option requested and default backlog. -/
def cfgNone : Config := ⟨false, false, false, false, false, 0⟩

/-- A configuration requesting every option, with backlog 17. -/
def cfgAll : Config := ⟨true, true, true, true, true, 17⟩

/-! ### Helper lemmas -/

/-- `copyFill` always produces exactly `n` bytes. -/
theorem copyFill_length (n : Nat) (src : List Nat) : (copyFill n src).length = n := by
  simp only [copyFill, List.length_append, List.length_take, List.length_replicate]
  omega

/-! ### Claim theorems -/

/-- C10: for every environment, network and address, `getSockaddr` never
returns the "Unknown network type" error of its default switch branch: the
initial validation makes that branch unreachable. -/
theorem getSockaddr_default_branch_unreachable (env : Env) (network addr : String) :
    ∀ s, getSockaddr env network addr ≠ .error (.unknownNetworkType s) := by
  intro s
  unfold getSockaddr
  split
  · simp
  · next hval =>
    cases hres : env.resolveTCPAddr network addr with
    | error e => simp
    | ok t =>
      simp only []
      split
      · simp
      · next h46 =>
        split
        · split
          · split <;> simp
          · simp
        · next h6 =>
          exfalso
          push_neg at hval h46
          exact h6 (hval h46.1 h46.2)

/-- C3 (amended): on the variant with low-level socket access, for every
network string outside {"tcp","tcp4","tcp6"}, `NewListener` fails
immediately with the unsupported-network error and opens no descriptor. -/
theorem unsupported_network_rejected (p : Platform) (env : Env)
    (network addr : String) (cfg : Config)
    (h : network ≠ "tcp" ∧ network ≠ "tcp4" ∧ network ≠ "tcp6") :
    (NewListener p env network addr cfg).result = .error .unsupportedNetwork
    ∧ (NewListener p env network addr cfg).fdTrace = [] := by
  unfold NewListener getSockaddr
  rw [if_pos h]
  exact ⟨rfl, rfl⟩

/-- Witness for C3's amended theorem: the network "udp" is rejected without
any descriptor event. -/
theorem unsupported_network_rejected_witness :
    (NewListener bsdPlatform envOk "udp" "127.0.0.1:80" cfgNone).result
      = .error .unsupportedNetwork
    ∧ (NewListener bsdPlatform envOk "udp" "127.0.0.1:80" cfgNone).fdTrace = [] :=
  unsupported_network_rejected bsdPlatform envOk "udp" "127.0.0.1:80" cfgNone
    (by decide)

/-- C3 (counterexample): the claim fails on the platform variant without
low-level socket access: its `NewListener` performs no network validation of
its own but delegates to `net.Listen`, which accepts further networks — in
an environment where `net.Listen` supports Unix-domain sockets (as Go
documents), `NewListener` on the unsupported network string "unix" succeeds
instead of failing. -/
theorem windows_unsupported_network_not_rejected :
    ("unix" ≠ "tcp" ∧ "unix" ≠ "tcp4" ∧ "unix" ≠ "tcp6")
    ∧ NewListenerWindows envNetListenUnix "unix" "/tmp/x.sock"
        ⟨false, false, false, 0⟩ = .ok ⟨11⟩ := by
  refine ⟨by decide, ?_⟩
  rfl

/-- Descriptor accounting for `NewListener`: the descriptors a call leaves
open are exactly the one owned by a successfully returned listener; on an
error result nothing stays open. -/
theorem newListener_fd_accounting (p : Platform) (env : Env)
    (network addr : String) (cfg : Config) :
    remaining (NewListener p env network addr cfg).fdTrace
      = (match (NewListener p env network addr cfg).result with
         | .ok ln => [ln.fd]
         | .error _ => []) := by
  unfold NewListener
  cases hsa : getSockaddr env network addr with
  | error e' => simp [remaining]
  | ok p' =>
    obtain ⟨sa, soType⟩ := p'
    cases hs : env.newSocketCloexec soType with
    | error e' => simp [hs, remaining]
    | ok fd =>
      cases hf : (fdSetup p env cfg fd sa addr).result with
      | error e' => simp [hs, hf, remaining]
      | ok u =>
        cases hl : env.fileListener fd with
        | error e' => simp [hs, hf, hl, remaining]
        | ok ln =>
          cases hc : env.fileClose fd with
          | some e' => simp [hs, hf, hl, hc, remaining, List.erase_cons_head]
          | none => simp [hs, hf, hl, hc, remaining, List.erase_cons_head]

/-- C1: on every failure path of `NewListener` — whatever the environment
does — every descriptor the call opened has been closed by the time the
error is returned. -/
theorem newListener_no_descriptor_leak_on_error (p : Platform) (env : Env)
    (network addr : String) (cfg : Config) (e : Err)
    (h : (NewListener p env network addr cfg).result = .error e) :
    remaining (NewListener p env network addr cfg).fdTrace = [] := by
  have hacc := newListener_fd_accounting p env network addr cfg
  rw [h] at hacc
  simpa using hacc

/-- Witness for C1: with `bind` failing (address in use), the call errors
and the trace leaves nothing open. -/
theorem newListener_no_descriptor_leak_on_error_witness :
    remaining (NewListener bsdPlatform envBindFail "tcp4" "127.0.0.1:80" cfgNone).fdTrace
      = [] :=
  newListener_no_descriptor_leak_on_error bsdPlatform envBindFail "tcp4" "127.0.0.1:80"
    cfgNone (.bindErr "127.0.0.1:80" "EADDRINUSE") rfl

/-- C9: for networks "tcp"/"tcp4", when the resolved IP has no 4-byte form
(`To4` is nil, e.g. a nil IP from an empty host), `getSockaddr` still
succeeds and the IPv4 socket address is the all-zero wildcard. -/
theorem tcp4_nil_ip_gives_wildcard (env : Env) (network addr : String) (t : TCPAddr)
    (hn : network = "tcp" ∨ network = "tcp4")
    (ht : env.resolveTCPAddr network addr = .ok t)
    (h4 : ipTo4 t.ip = none) :
    getSockaddr env network addr = .ok (.inet4 [0, 0, 0, 0] t.port, AF_INET) := by
  unfold getSockaddr
  have hval : ¬(network ≠ "tcp" ∧ network ≠ "tcp4" ∧ network ≠ "tcp6") := by
    rcases hn with h | h <;> simp [h]
  rw [if_neg hval, ht]
  simp only [ht]
  rw [if_pos hn]
  simp [h4, optBytes, copyFill, List.replicate]

/-- Witness for C9: resolving `":8080"` gives a nil IP, and `getSockaddr`
produces the wildcard IPv4 address with port 8080. -/
theorem tcp4_nil_ip_gives_wildcard_witness :
    getSockaddr envNilIP "tcp4" ":8080" = .ok (.inet4 [0, 0, 0, 0] 8080, AF_INET) :=
  tcp4_nil_ip_gives_wildcard envNilIP "tcp4" ":8080" ⟨[], 8080, ""⟩
    (Or.inr rfl) rfl (by decide)

/-- C7: `getSockaddr` produces, for "tcp"/"tcp4", an IPv4 socket address of
exactly 4 address bytes with the resolved port; for "tcp6", an IPv6 socket
address of exactly 16 address bytes with the resolved port, whose zone id is
0 without a zone and the looked-up interface index (truncated to 32 bits)
with one; and when the zone names no interface, resolution fails and
`NewListener` opens no descriptor. -/
theorem getSockaddr_families (env : Env) (network addr : String) (t : TCPAddr)
    (ht : env.resolveTCPAddr network addr = .ok t) :
    ((network = "tcp" ∨ network = "tcp4") →
      getSockaddr env network addr
        = .ok (.inet4 (copyFill 4 (optBytes (ipTo4 t.ip))) t.port, AF_INET)
      ∧ (copyFill 4 (optBytes (ipTo4 t.ip))).length = 4)
    ∧ (network = "tcp6" → t.zone = "" →
      getSockaddr env network addr
        = .ok (.inet6 (copyFill 16 (ipTo16 t.ip)) t.port 0, AF_INET6)
      ∧ (copyFill 16 (ipTo16 t.ip)).length = 16)
    ∧ (∀ ifi, network = "tcp6" → t.zone ≠ "" → env.interfaceByName t.zone = .ok ifi →
      getSockaddr env network addr
        = .ok (.inet6 (copyFill 16 (ipTo16 t.ip)) t.port (ifi.index % 2 ^ 32), AF_INET6))
    ∧ (∀ e p cfg, network = "tcp6" → t.zone ≠ "" → env.interfaceByName t.zone = .error e →
      getSockaddr env network addr = .error (.interfaceLookup e)
      ∧ (NewListener p env network addr cfg).fdTrace = []) := by
  refine ⟨?_, ?_, ?_, ?_⟩
  · intro hn
    have hval : ¬(network ≠ "tcp" ∧ network ≠ "tcp4" ∧ network ≠ "tcp6") := by
      rcases hn with h | h <;> simp [h]
    refine ⟨?_, copyFill_length 4 _⟩
    unfold getSockaddr
    rw [if_neg hval, ht]
    simp only []
    rw [if_pos hn]
  · intro hn hz
    refine ⟨?_, copyFill_length 16 _⟩
    unfold getSockaddr
    subst hn
    rw [if_neg (by simp), ht]
    simp [hz]
  · intro ifi hn hz hifi
    unfold getSockaddr
    subst hn
    rw [if_neg (by simp), ht]
    simp [hz, hifi]
  · intro e p cfg hn hz hifi
    have hga : getSockaddr env network addr = .error (.interfaceLookup e) := by
      unfold getSockaddr
      subst hn
      rw [if_neg (by simp), ht]
      simp [hz, hifi]
    refine ⟨hga, ?_⟩
    unfold NewListener
    rw [hga]

/-- Witness for C7: with a zone naming no interface, `getSockaddr` for
"tcp6" fails with the interface-lookup error and `NewListener` records no
descriptor event. -/
theorem getSockaddr_families_witness :
    getSockaddr envBadZone "tcp6" "[::1%nosuch0]:80"
      = .error (.interfaceLookup "route ip+net: no such network interface")
    ∧ (NewListener bsdPlatform envBadZone "tcp6" "[::1%nosuch0]:80" cfgNone).fdTrace
      = [] :=
  (getSockaddr_families envBadZone "tcp6" "[::1%nosuch0]:80"
      ⟨List.replicate 15 0 ++ [1], 80, "nosuch0"⟩ rfl).2.2.2
    "route ip+net: no such network interface" bsdPlatform cfgNone rfl
    (by decide) rfl

/-! ### Unfolding lemmas for the stages of `fdSetup` -/

/-- A conditional step whose operation succeeds just extends the trace when
its flag is set. -/
theorem condStep_none (flag : Bool) (ev : Step) (cfg : Config) (tr : List Step)
    (k : List Step → SetupResult) :
    condStep flag ev none cfg tr k = k (if flag then tr ++ [ev] else tr) := by
  cases flag <;> simp [condStep]

/-- A conditional step whose flag is set and whose operation fails aborts
with that error. -/
theorem condStep_some (ev : Step) (e : Err) (cfg : Config) (tr : List Step)
    (k : List Step → SetupResult) :
    condStep true ev (some e) cfg tr k = ⟨tr ++ [ev], cfg, .error e⟩ := by
  simp [condStep]

/-- A conditional step whose flag is clear is skipped entirely. -/
theorem condStep_false (ev : Step) (res : Option Err) (cfg : Config)
    (tr : List Step) (k : List Step → SetupResult) :
    condStep false ev res cfg tr k = k tr := by
  simp [condStep]

/-- If a conditional step's overall outcome is success, the step fell
through to its continuation (possibly after recording its event). -/
theorem condStep_ok (flag : Bool) (ev : Step) (res : Option Err) (cfg : Config)
    (tr : List Step) (k : List Step → SetupResult)
    (h : (condStep flag ev res cfg tr k).result = .ok ()) :
    condStep flag ev res cfg tr k = k (if flag then tr ++ [ev] else tr) := by
  cases flag with
  | false => simp [condStep]
  | true =>
    cases res with
    | none => simp [condStep]
    | some e => simp [condStep] at h

/-- The effective backlog depends only on the `Backlog` field. -/
theorem effectiveBacklog_congr (p : Platform) (env : Env) {cfg cfg' : Config}
    (hB : cfg.Backlog = cfg'.Backlog) :
    effectiveBacklog p env cfg = effectiveBacklog p env cfg' := by
  unfold effectiveBacklog
  rw [hB]

/-- The `listen` stage appends exactly one `listenStep` event carrying the
effective backlog, or nothing when the backlog query failed. -/
theorem fdSetupListen_trace (p : Platform) (env : Env) (cfg : Config) (fd : Fd)
    (addr : String) (tr : List Step) :
    (fdSetupListen p env cfg fd addr tr).trace
      = tr ++ (match effectiveBacklog p env cfg with
               | .error _ => []
               | .ok b => [Step.listenStep b]) := by
  unfold fdSetupListen
  cases heb : effectiveBacklog p env cfg with
  | error e => simp
  | ok b => cases hl : env.listen fd b <;> simp [hl]

/-- The outcome of the `listen` stage does not depend on the accumulated
trace, nor on any config field but `Backlog`. -/
theorem fdSetupListen_result (p : Platform) (env : Env) {cfg cfg' : Config}
    (fd : Fd) (addr : String) (tr tr' : List Step)
    (hB : cfg.Backlog = cfg'.Backlog) :
    (fdSetupListen p env cfg fd addr tr).result
      = (fdSetupListen p env cfg' fd addr tr').result := by
  unfold fdSetupListen
  rw [effectiveBacklog_congr p env hB]
  cases heb : effectiveBacklog p env cfg' with
  | error e => simp
  | ok b => cases hl : env.listen fd b <;> simp [hl]

/-- When `bind` succeeds the `bind` stage records its event and proceeds to
the `listen` stage. -/
theorem fdSetupBind_bindOk (p : Platform) (env : Env) (cfg : Config) (fd : Fd)
    (sa : Sockaddr) (addr : String) (tr : List Step)
    (h : env.bind fd sa = none) :
    fdSetupBind p env cfg fd sa addr tr
      = fdSetupListen p env cfg fd addr (tr ++ [Step.bindStep]) := by
  unfold fdSetupBind
  rw [h]

/-- When `bind` fails the `bind` stage aborts with the bind error naming the
address. -/
theorem fdSetupBind_bindFail (p : Platform) (env : Env) (cfg : Config) (fd : Fd)
    (sa : Sockaddr) (addr : String) (tr : List Step) (e : OsErr)
    (h : env.bind fd sa = some e) :
    fdSetupBind p env cfg fd sa addr tr
      = ⟨tr ++ [Step.bindStep], cfg, .error (.bindErr addr e)⟩ := by
  unfold fdSetupBind
  rw [h]

/-- The outcome of the `bind` stage does not depend on the accumulated
trace, nor on any config field but `Backlog`. -/
theorem fdSetupBind_result (p : Platform) (env : Env) {cfg cfg' : Config}
    (fd : Fd) (sa : Sockaddr) (addr : String) (tr tr' : List Step)
    (hB : cfg.Backlog = cfg'.Backlog) :
    (fdSetupBind p env cfg fd sa addr tr).result
      = (fdSetupBind p env cfg' fd sa addr tr').result := by
  cases hb : env.bind fd sa with
  | some e => rw [fdSetupBind_bindFail p env cfg fd sa addr tr e hb,
      fdSetupBind_bindFail p env cfg' fd sa addr tr' e hb]
  | none => rw [fdSetupBind_bindOk p env cfg fd sa addr tr hb,
      fdSetupBind_bindOk p env cfg' fd sa addr tr' hb,
      fdSetupListen_result p env fd addr _ _ hB]

/-- The option events `fdSetup` records for a config, in source order. -/
def optsEvents (cfg : Config) : List Step :=
  (if cfg.ReusePort then [.setReusePort] else [])
  ++ (if cfg.DeferAccept then [.deferAccept] else [])
  ++ (if cfg.FastOpen then [.fastOpen] else [])
  ++ (if cfg.NoDelay then [.noDelay] else [])
  ++ (if cfg.QuickACK then [.quickAck] else [])

/-- The full operation sequence of a successful `fdSetup`: the two
unconditional options, the requested tunables in order, then `bind`, then
`listen` with the effective backlog. -/
def expectedSetupTrace (cfg : Config) (b : Int) : List Step :=
  [.setReuseAddr, .setNoDelay] ++ optsEvents cfg ++ [.bindStep, .listenStep b]

/-- A successful `fdSetup` performed exactly the expected sequence, and its
backlog query succeeded. -/
theorem fdSetup_ok_spec (p : Platform) (env : Env) (cfg : Config)
    (fd : Fd) (sa : Sockaddr) (addr : String)
    (h : (fdSetup p env cfg fd sa addr).result = .ok ()) :
    ∃ b, effectiveBacklog p env cfg = .ok b
      ∧ (fdSetup p env cfg fd sa addr).trace = expectedSetupTrace cfg b := by
  unfold fdSetup at h ⊢
  cases h1 : env.setsockoptInt fd SOL_SOCKET SO_REUSEADDR 1 with
  | some e => simp [h1] at h
  | none =>
    simp only [h1] at h ⊢
    cases h2 : env.setsockoptInt fd IPPROTO_TCP TCP_NODELAY 1 with
    | some e => simp [h2] at h
    | none =>
      simp only [h2] at h ⊢
      unfold fdSetupOpts at h ⊢
      have e1 := condStep_ok _ _ _ _ _ _ h
      rw [e1] at h ⊢
      have e2 := condStep_ok _ _ _ _ _ _ h
      rw [e2] at h ⊢
      have e3 := condStep_ok _ _ _ _ _ _ h
      rw [e3] at h ⊢
      have e4 := condStep_ok _ _ _ _ _ _ h
      rw [e4] at h ⊢
      have e5 := condStep_ok _ _ _ _ _ _ h
      rw [e5] at h ⊢
      cases hb : env.bind fd sa with
      | some e => rw [fdSetupBind_bindFail _ _ _ _ _ _ _ _ hb] at h; simp at h
      | none =>
        rw [fdSetupBind_bindOk _ _ _ _ _ _ _ hb] at h ⊢
        cases heb : effectiveBacklog p env cfg with
        | error e => unfold fdSetupListen at h; rw [heb] at h; simp at h
        | ok b =>
          refine ⟨b, rfl, ?_⟩
          rw [fdSetupListen_trace, heb]
          obtain ⟨rp, da, fo, nd, qa, bl⟩ := cfg
          cases rp <;> cases da <;> cases fo <;> cases nd <;> cases qa <;>
            simp [expectedSetupTrace, optsEvents]

/-- C2: whenever `fdSetup` succeeds, the operations it performed are exactly,
in order: reuse-address, TCP_NODELAY, then — each only if requested —
reuse-port, deferred-accept, fast-open, explicit no-delay, quick-ack, and
only after all of those `bind`, and only after `bind` the single `listen`. -/
theorem fdSetup_option_order (p : Platform) (env : Env) (cfg : Config)
    (fd : Fd) (sa : Sockaddr) (addr : String)
    (h : (fdSetup p env cfg fd sa addr).result = .ok ()) :
    ∃ b, (fdSetup p env cfg fd sa addr).trace = expectedSetupTrace cfg b := by
  obtain ⟨b, _, htr⟩ := fdSetup_ok_spec p env cfg fd sa addr h
  exact ⟨b, htr⟩

/-- Witness for C2: with every option requested, the recorded operation
sequence is the full expected one. -/
theorem fdSetup_option_order_witness :
    ∃ b, (fdSetup bsdPlatform envOk cfgAll 7 (.inet4 [127, 0, 0, 1] 80)
        "127.0.0.1:80").trace = expectedSetupTrace cfgAll b :=
  fdSetup_option_order bsdPlatform envOk cfgAll 7 (.inet4 [127, 0, 0, 1] 80)
    "127.0.0.1:80" rfl

/-- C4: the backlog passed to `listen` is `cfg.Backlog` when positive and
the platform's `soMaxConn` value otherwise; a failing backlog query turns
into the backlog-query error and prevents success. -/
theorem backlog_selection (p : Platform) (env : Env) (cfg : Config) (fd : Fd)
    (sa : Sockaddr) (addr : String) (tr : List Step) :
    (0 < cfg.Backlog → effectiveBacklog p env cfg = .ok cfg.Backlog)
    ∧ (∀ m, cfg.Backlog ≤ 0 → p.soMaxConn env = .ok m →
        effectiveBacklog p env cfg = .ok m)
    ∧ (∀ b, (fdSetupListen p env cfg fd addr tr).trace = tr ++ [Step.listenStep b] →
        effectiveBacklog p env cfg = .ok b)
    ∧ (∀ e, cfg.Backlog ≤ 0 → p.soMaxConn env = .error e →
        (fdSetupListen p env cfg fd addr tr).result = .error (.backlogQuery e)
        ∧ (fdSetup p env cfg fd sa addr).result ≠ .ok ()) := by
  refine ⟨?_, ?_, ?_, ?_⟩
  · intro hpos
    unfold effectiveBacklog
    rw [if_neg (by omega)]
  · intro m hle hm
    unfold effectiveBacklog
    rw [if_pos hle, hm]
  · intro b htr
    rw [fdSetupListen_trace] at htr
    cases heb : effectiveBacklog p env cfg with
    | error e => rw [heb] at htr; simp at htr
    | ok b' =>
      rw [heb] at htr
      simp at htr
      rw [htr]
  · intro e hle hsm
    have heb : effectiveBacklog p env cfg = .error (.backlogQuery e) := by
      unfold effectiveBacklog
      rw [if_pos hle, hsm]
    constructor
    · unfold fdSetupListen
      rw [heb]
    · intro hok
      obtain ⟨b, heb', _⟩ := fdSetup_ok_spec p env cfg fd sa addr hok
      rw [heb] at heb'
      exact Except.noConfusion heb'

/-- Witness for C4: a positive configured backlog is used as-is, and a
non-positive one falls back to the BSD platform's `SOMAXCONN` (128). -/
theorem backlog_selection_witness :
    effectiveBacklog bsdPlatform envOk cfgAll = .ok 17
    ∧ effectiveBacklog bsdPlatform envOk cfgNone = .ok 128 :=
  ⟨(backlog_selection bsdPlatform envOk cfgAll 7 (.inet4 [0, 0, 0, 0] 80) "x" []).1
      (by decide),
   (backlog_selection bsdPlatform envOk cfgNone 7 (.inet4 [0, 0, 0, 0] 80) "x" []).2.1
      128 (by decide) rfl⟩

/-- On the BSD platform the outcome of the optional-tunable stage depends
only on the reuse-port flag and the backlog, not on the four no-op flags,
the accumulated trace, or the other config fields. -/
theorem fdSetupOpts_bsd_result (env : Env) (fd : Fd) (sa : Sockaddr)
    (addr : String) (rp da fo nd qa da' fo' nd' qa' : Bool) (bl : Int)
    (tr tr' : List Step) :
    (fdSetupOpts bsdPlatform env ⟨rp, da, fo, nd, qa, bl⟩ fd sa addr tr).result
      = (fdSetupOpts bsdPlatform env ⟨rp, da', fo', nd', qa', bl⟩ fd sa addr tr').result := by
  unfold fdSetupOpts
  simp only [bsdPlatform, condStep_none]
  cases rp with
  | false =>
    simp only [condStep_false]
    exact fdSetupBind_result bsdPlatform env fd sa addr _ _ rfl
  | true =>
    cases hso : env.setsockoptInt fd SOL_SOCKET soReusePort 1 with
    | some e => simp [hso, condStep_some]
    | none =>
      simp only [hso, Option.map_none', condStep_none]
      exact fdSetupBind_result bsdPlatform env fd sa addr _ _ rfl

/-- On the BSD platform the outcome of `fdSetup` does not depend on the
four no-op tunable flags. -/
theorem fdSetup_bsd_result (env : Env) (fd : Fd) (sa : Sockaddr)
    (addr : String) (rp da fo nd qa da' fo' nd' qa' : Bool) (bl : Int) :
    (fdSetup bsdPlatform env ⟨rp, da, fo, nd, qa, bl⟩ fd sa addr).result
      = (fdSetup bsdPlatform env ⟨rp, da', fo', nd', qa', bl⟩ fd sa addr).result := by
  unfold fdSetup
  cases h1 : env.setsockoptInt fd SOL_SOCKET SO_REUSEADDR 1 with
  | some e => simp [h1]
  | none =>
    simp only [h1]
    cases h2 : env.setsockoptInt fd IPPROTO_TCP TCP_NODELAY 1 with
    | some e => simp [h2]
    | none =>
      simp only [h2]
      exact fdSetupOpts_bsd_result env fd sa addr rp da fo nd qa da' fo' nd' qa' bl _ _

/-- C5: on the BSD platform variant, where deferred-accept, fast-open,
explicit no-delay and quick-ack are success-returning no-ops, requesting any
of those options changes neither the outcome of the option pipeline nor the
outcome of `NewListener`: such a request alone can never cause failure. -/
theorem bsd_noop_tunables_never_fail (env : Env) (network addr : String)
    (cfg : Config) (a b c d : Bool) (fd : Fd) (sa : Sockaddr) (saddr : String) :
    ((fdSetup bsdPlatform env
        { cfg with DeferAccept := a, FastOpen := b, NoDelay := c, QuickACK := d }
        fd sa saddr).result
      = (fdSetup bsdPlatform env cfg fd sa saddr).result)
    ∧ ((NewListener bsdPlatform env network addr
        { cfg with DeferAccept := a, FastOpen := b, NoDelay := c, QuickACK := d }).result
      = (NewListener bsdPlatform env network addr cfg).result) := by
  obtain ⟨rp, da, fo, nd, qa, bl⟩ := cfg
  refine ⟨fdSetup_bsd_result env fd sa saddr rp a b c d da fo nd qa bl, ?_⟩
  unfold NewListener
  cases hsa : getSockaddr env network addr with
  | error e => simp [hsa]
  | ok pr =>
    obtain ⟨sa', soType⟩ := pr
    simp only [hsa]
    cases hs : env.newSocketCloexec soType with
    | error e => simp [hs]
    | ok fd' =>
      simp only [hs]
      rw [fdSetup_bsd_result env fd' sa' addr rp a b c d da fo nd qa bl]

/-- When both unconditional options succeed, `fdSetup` proceeds to the
optional tunables with the two events recorded. -/
theorem fdSetup_unfold_opts (p : Platform) (env : Env) (cfg : Config)
    (fd : Fd) (sa : Sockaddr) (addr : String)
    (h1 : env.setsockoptInt fd SOL_SOCKET SO_REUSEADDR 1 = none)
    (h2 : env.setsockoptInt fd IPPROTO_TCP TCP_NODELAY 1 = none) :
    fdSetup p env cfg fd sa addr
      = fdSetupOpts p env cfg fd sa addr [.setReuseAddr, .setNoDelay] := by
  unfold fdSetup
  rw [h1, h2]

/-- C6: a failure while enabling a requested option aborts the pipeline:
when reuse-port is requested and its `setsockopt` fails, `fdSetup` returns
that failure wrapped as the reuse-port error; when any of the four
platform tunables is requested and its enable fails, `fdSetup` returns that
enable's error unchanged; and on the full-featured platform variant each
enable can only fail with an error wrapped in that option's name. -/
theorem requested_option_failure_aborts (env : Env) (cfg : Config) (fd : Fd)
    (sa : Sockaddr) (addr : String)
    (h1 : env.setsockoptInt fd SOL_SOCKET SO_REUSEADDR 1 = none)
    (h2 : env.setsockoptInt fd IPPROTO_TCP TCP_NODELAY 1 = none) :
    (∀ (p : Platform) e, cfg.ReusePort = true →
      env.setsockoptInt fd SOL_SOCKET soReusePort 1 = some e →
      (fdSetup p env cfg fd sa addr).result = .error (.reusePort e))
    ∧ (∀ (p : Platform) err, env.setsockoptInt fd SOL_SOCKET soReusePort 1 = none →
        ((cfg.DeferAccept = true → p.enableDeferAccept env fd = some err →
          (fdSetup p env cfg fd sa addr).result = .error err)
        ∧ (p.enableDeferAccept env fd = none →
           cfg.FastOpen = true → p.enableFastOpen env fd = some err →
          (fdSetup p env cfg fd sa addr).result = .error err)
        ∧ (p.enableDeferAccept env fd = none → p.enableFastOpen env fd = none →
           cfg.NoDelay = true → p.enableNoDelay env fd = some err →
          (fdSetup p env cfg fd sa addr).result = .error err)
        ∧ (p.enableDeferAccept env fd = none → p.enableFastOpen env fd = none →
           p.enableNoDelay env fd = none →
           cfg.QuickACK = true → p.enableQuickAck env fd = some err →
          (fdSetup p env cfg fd sa addr).result = .error err)))
    ∧ ((∀ err, linuxPlatform.enableDeferAccept env fd = some err →
        ∃ e, err = .option "TCP_DEFER_ACCEPT" e)
      ∧ (∀ err, linuxPlatform.enableFastOpen env fd = some err →
        ∃ e, err = .option "TCP_FASTOPEN" e)
      ∧ (∀ err, linuxPlatform.enableNoDelay env fd = some err →
        ∃ e, err = .option "TCP_NODELAY" e)
      ∧ (∀ err, linuxPlatform.enableQuickAck env fd = some err →
        ∃ e, err = .option "TCP_QUICKACK" e)) := by
  refine ⟨?_, ?_, ?_⟩
  · intro p e hR hso
    rw [fdSetup_unfold_opts p env cfg fd sa addr h1 h2]
    unfold fdSetupOpts
    rw [hR, hso]
    simp [condStep_some]
  · intro p err hso
    rw [fdSetup_unfold_opts p env cfg fd sa addr h1 h2]
    unfold fdSetupOpts
    rw [hso]
    simp only [Option.map_none', condStep_none]
    refine ⟨?_, ?_, ?_, ?_⟩
    · intro hD hDres
      rw [hD, hDres]
      simp [condStep_some]
    · intro hDok hF hFres
      rw [hDok, hF, hFres]
      simp only [condStep_none, condStep_some]
    · intro hDok hFok hN hNres
      rw [hDok, hFok, hN, hNres]
      simp only [condStep_none, condStep_some]
    · intro hDok hFok hNok hQ hQres
      rw [hDok, hFok, hNok, hQ, hQres]
      simp only [condStep_none, condStep_some]
  · refine ⟨?_, ?_, ?_, ?_⟩ <;>
      · intro err h
        simp only [linuxPlatform] at h
        rcases Option.map_eq_some'.mp h with ⟨e, _, he⟩
        exact ⟨e, he.symm⟩

/-- Witness for C6: with reuse-port requested and its `setsockopt` failing,
`fdSetup` aborts with the wrapped reuse-port error. -/
theorem requested_option_failure_aborts_witness :
    (fdSetup bsdPlatform envReusePortFail cfgAll 7 (.inet4 [0, 0, 0, 0] 80)
        "x").result = .error (.reusePort "ENOPROTOOPT") :=
  (requested_option_failure_aborts envReusePortFail cfgAll 7 (.inet4 [0, 0, 0, 0] 80)
      "x" rfl rfl).1 bsdPlatform "ENOPROTOOPT" rfl rfl

/-- The `listen` stage returns the receiver config unchanged. -/
theorem fdSetupListen_cfgOut (p : Platform) (env : Env) (cfg : Config)
    (fd : Fd) (addr : String) (tr : List Step) :
    (fdSetupListen p env cfg fd addr tr).cfgOut = cfg := by
  unfold fdSetupListen
  cases heb : effectiveBacklog p env cfg with
  | error e => simp [heb]
  | ok b => cases hl : env.listen fd b <;> simp [heb, hl]

/-- The `bind` stage returns the receiver config unchanged. -/
theorem fdSetupBind_cfgOut (p : Platform) (env : Env) (cfg : Config)
    (fd : Fd) (sa : Sockaddr) (addr : String) (tr : List Step) :
    (fdSetupBind p env cfg fd sa addr tr).cfgOut = cfg := by
  cases hb : env.bind fd sa with
  | some e => rw [fdSetupBind_bindFail p env cfg fd sa addr tr e hb]
  | none =>
    rw [fdSetupBind_bindOk p env cfg fd sa addr tr hb]
    exact fdSetupListen_cfgOut p env cfg fd addr _

/-- A conditional step returns the receiver config unchanged when its
continuation does. -/
theorem condStep_cfgOut (flag : Bool) (ev : Step) (res : Option Err)
    (cfg : Config) (tr : List Step) (k : List Step → SetupResult)
    (hk : ∀ tr', (k tr').cfgOut = cfg) :
    (condStep flag ev res cfg tr k).cfgOut = cfg := by
  cases flag with
  | false => simp [condStep, hk]
  | true =>
    cases res with
    | some e => simp [condStep]
    | none => simp [condStep, hk]

/-- C8: the option-application pipeline never mutates its receiver
configuration: whatever the environment, platform and inputs, and whether
it succeeds or fails, `fdSetup` leaves every field of the `Config` exactly
as it was — the same configuration value can be reused across calls. -/
theorem fdSetup_never_mutates_config (p : Platform) (env : Env) (cfg : Config)
    (fd : Fd) (sa : Sockaddr) (addr : String) :
    (fdSetup p env cfg fd sa addr).cfgOut = cfg := by
  unfold fdSetup
  cases h1 : env.setsockoptInt fd SOL_SOCKET SO_REUSEADDR 1 with
  | some e => simp [h1]
  | none =>
    simp only [h1]
    cases h2 : env.setsockoptInt fd IPPROTO_TCP TCP_NODELAY 1 with
    | some e => simp [h2]
    | none =>
      simp only [h2]
      unfold fdSetupOpts
      apply condStep_cfgOut; intro t1
      apply condStep_cfgOut; intro t2
      apply condStep_cfgOut; intro t3
      apply condStep_cfgOut; intro t4
      apply condStep_cfgOut; intro t5
      exact fdSetupBind_cfgOut p env cfg fd sa addr t5

end TcpListen
